import Mathlib

/-!
Verification of the PookieCare order lifecycle (`products` app): the
Order/OrderItem cart aggregate, stock-checked order completion, and the
print-slip renderer, shallowly embedded from `src/products/models.py` and
`src/products/views.py`.

Modelling conventions:
* Database rows are records held in lists; primary keys are natural numbers
  standing for the UUID keys of the source.
* `DecimalField` money values are rationals; `IntegerField` columns are
  integers (Django validators run only in forms, not at `save()`, so the
  types are not range-restricted here; theorems add validator bounds as
  hypotheses where they matter).
* Timestamps are naturals; `timezone.now()` is passed in as a parameter.
* Each Django view / model method becomes a function from a `Store` (the
  database state) to a result paired with the new `Store`.  Fresh UUIDs
  (`uuid.uuid4`) are passed in as parameters; theorems that need them
  fresh assume so explicitly.
-/

/-- `Product` row (`models.py`, class `Product`): display name, unit price
(`DecimalField`, validator `MinValueValidator(0.01)`), `available_stock`
(`IntegerField`, validator `MinValueValidator(0)`), `featured` flag.
Catalog-only fields (brand, category, images, details, timestamps) are
omitted: no claim mentions them. -/
structure Product where
  productId : Nat
  product_name : String
  price : ℚ
  available_stock : Int
  featured : Bool
  deriving Repr, DecidableEq

/-- `Order` row (`models.py`, class `Order`): owning user, `in_cart`
discriminator (default `True`), nullable `completed_at`. -/
structure Order where
  orderId : Nat
  userId : Nat
  in_cart : Bool
  completed_at : Option Nat
  deriving Repr, DecidableEq

/-- `OrderItem` row (`models.py`, class `OrderItem`): order and product
references, `quantity` (`IntegerField`, default 1, validator
`MinValueValidator(1)`), `price_at_purchase` (`DecimalField`; `None` while
unsaved, the `save` override fills it in). -/
structure OrderItem where
  orderItemId : Nat
  orderId : Nat
  productId : Nat
  quantity : Int
  price_at_purchase : Option ℚ
  deriving Repr, DecidableEq

/-- The database state seen by the `products` views. -/
structure Store where
  products : List Product
  orders : List Order
  items : List OrderItem
  deriving Repr, DecidableEq

/-- The empty initial database. -/
def emptyStore : Store := { products := [], orders := [], items := [] }

/-- `Product.objects.get(product_id=pid)` on a plain list of rows. -/
def findProductL (ps : List Product) (pid : Nat) : Option Product :=
  ps.find? (fun p => p.productId == pid)

/-- `get_object_or_404(Product, product_id=pid)` (`views.py` line 116). -/
def findProduct (s : Store) (pid : Nat) : Option Product :=
  findProductL s.products pid

/-- `order.items.all()`: the reverse foreign-key manager of `OrderItem.order`. -/
def orderItems (s : Store) (oid : Nat) : List OrderItem :=
  s.items.filter (fun it => it.orderId == oid)

/-- `OrderItem.get_subtotal` (`models.py` lines 243-247): `0` when
`price_at_purchase is None`, else `quantity * price_at_purchase`. -/
def get_subtotal (it : OrderItem) : ℚ :=
  match it.price_at_purchase with
  | none => 0
  | some p => (it.quantity : ℚ) * p

/-- `Order.get_total_items` (`models.py` lines 169-171): sum of item
quantities.  (The `if self.pk` guard is vacuous here: every `Order` in a
`Store` is a saved row.) -/
def get_total_items (s : Store) (oid : Nat) : Int :=
  ((orderItems s oid).map (fun it => it.quantity)).sum

/-- `Order.get_total_price` (`models.py` lines 173-175): sum of item
subtotals. -/
def get_total_price (s : Store) (oid : Nat) : ℚ :=
  ((orderItems s oid).map get_subtotal).sum

/-- The stock check of `Order.complete_order` (`models.py` lines 184-187)
for one item: `item.product.available_stock < item.quantity` aborts.  A
dangling product reference would raise in Django; it is mapped to a failing
check here, and theorems assume referenced products exist. -/
def stockOk (s : Store) (it : OrderItem) : Bool :=
  match findProduct s it.productId with
  | some p => decide (it.quantity ≤ p.available_stock)
  | none => false

/-- `item.product.<f> = ...; item.product.save()`: rewrite the product row
with the matching primary key. -/
def updateProduct (ps : List Product) (pid : Nat) (f : Product → Product) : List Product :=
  ps.map (fun p => if p.productId == pid then f p else p)

/-- The decrement loop of `Order.complete_order` (`models.py` lines
189-192): for every item, `item.product.available_stock -= item.quantity`
then save. -/
def deductStock (ps : List Product) (its : List OrderItem) : List Product :=
  its.foldl
    (fun acc it =>
      updateProduct acc it.productId
        (fun p => { p with available_stock := p.available_stock - it.quantity }))
    ps

/-- The completion marking of `Order.complete_order` (`models.py` lines
194-197): `in_cart = False`, `completed_at = timezone.now()`. -/
def markCompleted (now : Nat) (o : Order) : Order :=
  { o with in_cart := false, completed_at := some now }

/-- `Order.complete_order` (`models.py` lines 177-199): check stock for all
items; only if every item passes, deduct stock per item, mark the order
completed, and return `True`; otherwise return `False` having changed
nothing. -/
def complete_order (s : Store) (oid : Nat) (now : Nat) : Bool × Store :=
  let its := orderItems s oid
  if its.all (stockOk s) then
    (true,
      { s with
        products := deductStock s.products its,
        orders := s.orders.map (fun o => if o.orderId == oid then markCompleted now o else o) })
  else (false, s)

/-- The POST `quantity` field as the views see it: absent, present but not
parseable by `int(...)`, or an integer. -/
inductive QtyInput where
  | missing
  | garbage
  | value (n : Int)
  deriving Repr, DecidableEq

/-- `int(request.POST.get('quantity', 1))` with the `except` arm coercing
to 1 (`views.py` lines 118-121 and 193-196): a missing field takes the
default 1, an unparseable field takes 1 from the handler. -/
def parseQty : QtyInput → Int
  | .missing => 1
  | .garbage => 1
  | .value n => n

/-- `quantity = max(quantity, 1)` (`views.py` line 123), applied on top of
`parseQty` by `add_to_cart_view` only. -/
def coercedAddQty (q : QtyInput) : Int :=
  max (parseQty q) 1

/-- Outcomes of `add_to_cart_view`, keyed by the message/redirect taken. -/
inductive AddResult where
  | notFound
  | outOfStock
  | insufficientStock
  | success
  deriving Repr, DecidableEq

/-- `Order.objects.filter(user=..., in_cart=True).first()` / the lookup half
of `get_or_create(user=..., in_cart=True)`. -/
def findActiveCart (s : Store) (userId : Nat) : Option Order :=
  s.orders.find? (fun o => o.userId == userId && o.in_cart)

/-- The lookup half of `OrderItem.objects.get_or_create(order=..., product=...)`. -/
def findCartItem (s : Store) (oid pid : Nat) : Option OrderItem :=
  s.items.find? (fun it => it.orderId == oid && it.productId == pid)

/-- `OrderItem.save` override (`models.py` lines 249-253): when
`not self.price_at_purchase` (Python-falsy: `None` or zero) and the product
reference resolves, snapshot `price_at_purchase` from the product's current
price before saving. -/
def orderItemSave (s : Store) (it : OrderItem) : OrderItem :=
  if it.price_at_purchase.getD 0 == 0 then
    match findProduct s it.productId with
    | some p => { it with price_at_purchase := some p.price }
    | none => it
  else it

/-- `Order.objects.get_or_create(user=request.user, in_cart=True)`
(`views.py` line 134): return the active cart, creating a fresh one (new
primary key `newOid`, defaults `in_cart=True`, `completed_at=None`) when
none exists.  Returns the cart together with the updated order table. -/
def getOrCreateCart (s : Store) (userId newOid : Nat) : Order × List Order :=
  match findActiveCart s userId with
  | some o => (o, s.orders)
  | none =>
    let o : Order := { orderId := newOid, userId := userId, in_cart := true, completed_at := none }
    (o, s.orders ++ [o])

/-- `add_to_cart_view` (`views.py` lines 113-158): resolve the product (404
when absent), coerce the quantity, reject when stock is non-positive
(`OutOfStock` message) or the request exceeds stock (`InsufficientStock`
message); otherwise find-or-create the active cart and the cart line for
this product — a new line stores the coerced quantity and snapshots
`price_at_purchase = product.price`; an existing line has its quantity
incremented, but only after re-checking the cumulative quantity against
stock. -/
def add_to_cart (s : Store) (userId pid : Nat) (qinput : QtyInput)
    (newOid newItemId : Nat) : AddResult × Store :=
  match findProduct s pid with
  | none => (.notFound, s)
  | some product =>
    let quantity := coercedAddQty qinput
    if product.available_stock ≤ 0 then (.outOfStock, s)
    else if product.available_stock < quantity then (.insufficientStock, s)
    else
      let oc := getOrCreateCart s userId newOid
      match findCartItem s oc.1.orderId pid with
      | none =>
        let newItem : OrderItem :=
          orderItemSave s
            { orderItemId := newItemId, orderId := oc.1.orderId, productId := pid,
              quantity := quantity, price_at_purchase := some product.price }
        (.success,
          { s with
            orders := oc.2,
            items := s.items ++ [newItem] })
      | some it =>
        let newQ := it.quantity + quantity
        if product.available_stock < newQ then
          (.insufficientStock, { s with orders := oc.2 })
        else
          (.success,
            { s with
              orders := oc.2,
              items := s.items.map (fun j =>
                if j.orderItemId == it.orderItemId
                then orderItemSave s { j with quantity := newQ }
                else j) })

/-- Outcomes of `update_cart_item_view` / `remove_from_cart_view`. -/
inductive UpdateResult where
  | notFound
  | removed
  | insufficientStock
  | updated
  deriving Repr, DecidableEq

/-- `get_object_or_404(OrderItem, order_item_id=..., order__user=request.user,
order__in_cart=True)` (`views.py` lines 186-191): the item, provided its
order belongs to the requesting user and is still a cart. -/
def findOwnedCartItem (s : Store) (userId itemId : Nat) : Option OrderItem :=
  s.items.find? (fun it =>
    it.orderItemId == itemId &&
      ((s.orders.find? (fun o => o.orderId == it.orderId)).elim false
        (fun o => o.userId == userId && o.in_cart)))

/-- `update_cart_item_view` (`views.py` lines 183-210): resolve the owned
cart item (404 otherwise), parse the quantity; below 1 the item is deleted;
above the product's current stock the update is rejected; otherwise the
quantity is overwritten and the item saved. -/
def update_cart_item (s : Store) (userId itemId : Nat) (qinput : QtyInput) :
    UpdateResult × Store :=
  match findOwnedCartItem s userId itemId with
  | none => (.notFound, s)
  | some it =>
    let quantity := parseQty qinput
    if quantity < 1 then
      (.removed, { s with items := s.items.filter (fun j => !(j.orderItemId == itemId)) })
    else
      match findProduct s it.productId with
      | none => (.notFound, s)
      | some product =>
        if product.available_stock < quantity then (.insufficientStock, s)
        else
          (.updated,
            { s with
              items := s.items.map (fun j =>
                if j.orderItemId == it.orderItemId
                then orderItemSave s { j with quantity := quantity }
                else j) })

/-- `remove_from_cart_view` (`views.py` lines 213-224): resolve the owned
cart item (404 otherwise) and delete it unconditionally. -/
def remove_from_cart (s : Store) (userId itemId : Nat) : UpdateResult × Store :=
  match findOwnedCartItem s userId itemId with
  | none => (.notFound, s)
  | some _ => (.removed, { s with items := s.items.filter (fun j => !(j.orderItemId == itemId)) })

/-- Outcomes of `checkout_view`. -/
inductive CheckoutResult where
  | emptyCart
  | insufficientStock
  | success
  deriving Repr, DecidableEq

/-- The order-completion core of `checkout_view` (`views.py` lines 227-269):
no active cart, or an active cart with zero total items, short-circuits as
an empty cart; otherwise `cart.complete_order()` decides between success and
an insufficient-stock outcome.  (The contact-field copy onto the user
profile is outside the order data model.) -/
def checkout (s : Store) (userId : Nat) (now : Nat) : CheckoutResult × Store :=
  match findActiveCart s userId with
  | none => (.emptyCart, s)
  | some cart =>
    if get_total_items s cart.orderId == 0 then (.emptyCart, s)
    else
      let r := complete_order s cart.orderId now
      if r.1 then (.success, r.2) else (.insufficientStock, r.2)

/-- Outcomes of `download_print_slip_view`: HTTP 404, a PDF from the
primary (WeasyPrint) engine, a PDF from the fallback (ReportLab) engine, or
HTTP 503 (`PDF generation not available`). -/
inductive SlipResult where
  | notFound
  | pdfPrimary
  | pdfFallback
  | unavailable
  deriving Repr, DecidableEq

/-- Order resolution of `download_print_slip_view` (`views.py` lines
292-304): with an explicit `order_id`, `get_object_or_404` over the user's
completed orders; without one, the user's active cart, 404 when absent. -/
def resolveSlipOrder (s : Store) (userId : Nat) (order_id : Option Nat) : Option Order :=
  match order_id with
  | some oid => s.orders.find? (fun o => o.orderId == oid && o.userId == userId && !o.in_cart)
  | none => findActiveCart s userId

/-- `download_print_slip_view` (`views.py` lines 285-341): resolve the
order (404 when absent), 404 when it has no items; try WeasyPrint when its
module import succeeded, swallowing any rendering exception; fall back to the
ReportLab construction when the `canvas` import succeeded; answer 503 when
neither produced bytes.  `weasyAvail`/`canvasAvail` model the module-level
`try: import` results (`views.py` lines 13-22), `weasyRaises` models
`write_pdf()` throwing. -/
def download_print_slip (s : Store) (userId : Nat) (order_id : Option Nat)
    (weasyAvail weasyRaises canvasAvail : Bool) : SlipResult :=
  match resolveSlipOrder s userId order_id with
  | none => .notFound
  | some order =>
    if (orderItems s order.orderId).isEmpty then .notFound
    else if weasyAvail && !weasyRaises then .pdfPrimary
    else if canvasAvail then .pdfFallback
    else .unavailable

/-- `Order.Meta` (`models.py` lines 160-163) declares no `unique_together`
(nor any `UniqueConstraint`): the list of storage-layer uniqueness
constraints on the `Order` table is empty. -/
def orderMetaUniqueTogether : List (List String) := []

/-- `OrderItem.Meta.unique_together` (`models.py` line 238). -/
def orderItemMetaUniqueTogether : List (List String) := [["order", "product"]]

/-- Modelled from the spec: section 5 mandates that the one-active-cart
invariant be guaranteed "via a uniqueness constraint on (user, in_cart=true)
enforced at the storage layer"; this is the constraint the `Order` table
would have to declare. -/
def specOrderUniqueConstraint : List String := ["user", "in_cart"]

/-- The number of orders a user has with `in_cart=True`, over a raw order
table. -/
def activeCount (os : List Order) (u : Nat) : Nat :=
  (os.filter (fun o => o.userId == u && o.in_cart)).length

/-- The number of active carts a user has in the store. -/
def activeCartCount (s : Store) (u : Nat) : Nat :=
  activeCount s.orders u

/-- Quantity a completed order deducts from one product: the summed
quantity of the order's items that reference it. -/
def qtyFor (its : List OrderItem) (pid : Nat) : Int :=
  ((its.filter (fun it => it.productId == pid)).map (fun it => it.quantity)).sum

/-- The `(order, product)` key of a cart line, unique per
`OrderItem.Meta.unique_together`. -/
def pairKey (it : OrderItem) : Nat × Nat :=
  (it.orderId, it.productId)

/-- The `(order, product)`-uniqueness invariant on the item table. -/
def pairsNodup (its : List OrderItem) : Prop :=
  (its.map pairKey).Nodup

/-- Erase the one product field order completion may change, for frame
statements. -/
def stripStock (p : Product) : Product :=
  { p with available_stock := 0 }

/-- `Order.objects.get(order_id=oid)` on a raw order table. -/
def findOrderL (os : List Order) (oid : Nat) : Option Order :=
  os.find? (fun o => o.orderId == oid)

theorem findProductL_updateProduct (ps : List Product) (pid qid : Nat) (f : Product → Product)
    (hf : ∀ p, (f p).productId = p.productId) :
    findProductL (updateProduct ps qid f) pid
      = (findProductL ps pid).map (fun p => if p.productId == qid then f p else p) := by
  induction ps with
  | nil => rfl
  | cons a l ih =>
    have hb : (if (a.productId == qid) = true then f a else a).productId = a.productId := by
      split
      · exact hf a
      · rfl
    show List.find? (fun p => p.productId == pid)
        ((if (a.productId == qid) = true then f a else a) :: updateProduct l qid f)
      = Option.map (fun p => if (p.productId == qid) = true then f p else p)
          (List.find? (fun p => p.productId == pid) (a :: l))
    cases hpa : a.productId == pid with
    | true =>
      have h1 : List.find? (fun p => p.productId == pid) (a :: l) = some a :=
        List.find?_cons_of_pos _ hpa
      have h2 : List.find? (fun p => p.productId == pid)
          ((if (a.productId == qid) = true then f a else a) :: updateProduct l qid f)
          = some (if (a.productId == qid) = true then f a else a) :=
        List.find?_cons_of_pos _ (by show ((if (a.productId == qid) = true then f a else a).productId == pid) = true; rw [hb]; exact hpa)
      rw [h1, h2]
      rfl
    | false =>
      have h1 : List.find? (fun p => p.productId == pid) (a :: l)
          = List.find? (fun p => p.productId == pid) l :=
        List.find?_cons_of_neg _ (by simp [hpa])
      have h2 : List.find? (fun p => p.productId == pid)
          ((if (a.productId == qid) = true then f a else a) :: updateProduct l qid f)
          = List.find? (fun p => p.productId == pid) (updateProduct l qid f) :=
        List.find?_cons_of_neg _ (by show ¬((if (a.productId == qid) = true then f a else a).productId == pid) = true; rw [hb]; simp [hpa])
      rw [h1, h2]
      exact ih

theorem findOrderL_mapUpdate (os : List Order) (oid qid : Nat) (g : Order → Order)
    (hg : ∀ o, (g o).orderId = o.orderId) :
    findOrderL (os.map (fun o => if o.orderId == qid then g o else o)) oid
      = (findOrderL os oid).map (fun o => if o.orderId == qid then g o else o) := by
  induction os with
  | nil => rfl
  | cons a l ih =>
    have hb : (if (a.orderId == qid) = true then g a else a).orderId = a.orderId := by
      split
      · exact hg a
      · rfl
    show List.find? (fun o => o.orderId == oid)
        ((if (a.orderId == qid) = true then g a else a)
          :: l.map (fun o => if (o.orderId == qid) = true then g o else o))
      = Option.map (fun o => if (o.orderId == qid) = true then g o else o)
          (List.find? (fun o => o.orderId == oid) (a :: l))
    cases hpa : a.orderId == oid with
    | true =>
      have h1 : List.find? (fun o => o.orderId == oid) (a :: l) = some a :=
        List.find?_cons_of_pos _ hpa
      have h2 : List.find? (fun o => o.orderId == oid)
          ((if (a.orderId == qid) = true then g a else a)
            :: l.map (fun o => if (o.orderId == qid) = true then g o else o))
          = some (if (a.orderId == qid) = true then g a else a) :=
        List.find?_cons_of_pos _ (by show ((if (a.orderId == qid) = true then g a else a).orderId == oid) = true; rw [hb]; exact hpa)
      rw [h1, h2]
      rfl
    | false =>
      have h1 : List.find? (fun o => o.orderId == oid) (a :: l)
          = List.find? (fun o => o.orderId == oid) l :=
        List.find?_cons_of_neg _ (by simp [hpa])
      have h2 : List.find? (fun o => o.orderId == oid)
          ((if (a.orderId == qid) = true then g a else a)
            :: l.map (fun o => if (o.orderId == qid) = true then g o else o))
          = List.find? (fun o => o.orderId == oid)
              (l.map (fun o => if (o.orderId == qid) = true then g o else o)) :=
        List.find?_cons_of_neg _ (by show ¬((if (a.orderId == qid) = true then g a else a).orderId == oid) = true; rw [hb]; simp [hpa])
      rw [h1, h2]
      exact ih

theorem qtyFor_cons (it : OrderItem) (its : List OrderItem) (pid : Nat) :
    qtyFor (it :: its) pid
      = (if it.productId == pid then it.quantity else 0) + qtyFor its pid := by
  by_cases h : (it.productId == pid) = true <;>
    simp [qtyFor, List.filter_cons, h]

theorem findProductL_deductStock (its : List OrderItem) (ps : List Product) (pid : Nat) :
    findProductL (deductStock ps its) pid
      = (findProductL ps pid).map
          (fun p => { p with available_stock := p.available_stock - qtyFor its pid }) := by
  induction its generalizing ps with
  | nil =>
    cases h : findProductL ps pid with
    | none => simp [deductStock, h]
    | some p => simp [deductStock, h, qtyFor]
  | cons it its ih =>
    have hstep := findProductL_updateProduct ps pid it.productId
      (fun p => { p with available_stock := p.available_stock - it.quantity }) (fun p => rfl)
    show findProductL (deductStock (updateProduct ps it.productId
        (fun p => { p with available_stock := p.available_stock - it.quantity })) its) pid = _
    rw [ih, hstep]
    cases h : findProductL ps pid with
    | none => rfl
    | some p =>
      unfold findProductL at h
      have hp : p.productId = pid := by simpa using List.find?_some h
      rw [qtyFor_cons]
      by_cases hq : it.productId = pid
      · have heq : p.productId = it.productId := by omega
        have hqq : (it.productId == pid) = true := by simpa using hq
        simp [heq, hqq, sub_sub]
      · have hne : ¬ p.productId = it.productId := by omega
        have hqq : (it.productId == pid) = false := by simpa using hq
        simp [hne, hqq]

theorem stripStock_deductStock (its : List OrderItem) (ps : List Product) :
    (deductStock ps its).map stripStock = ps.map stripStock := by
  induction its generalizing ps with
  | nil => rfl
  | cons it its ih =>
    show (deductStock (updateProduct ps it.productId
        (fun p => { p with available_stock := p.available_stock - it.quantity })) its).map stripStock = _
    rw [ih]
    unfold updateProduct
    rw [List.map_map]
    apply List.map_congr_left
    intro p _
    by_cases h : p.productId = it.productId <;> simp [stripStock, h]

/-- C1: `complete_order` is all-or-nothing on failure: whenever some item of
the order asks for more than its product's current `available_stock`, the
call returns `False` and the whole store — every product's stock, the
order's `in_cart` flag and its `completed_at` — is left exactly as it was. -/
theorem C1_complete_order_all_or_nothing (s : Store) (oid : Nat) (now : Nat)
    (it : OrderItem) (p : Product)
    (hit : it ∈ orderItems s oid)
    (hp : findProduct s it.productId = some p)
    (hover : p.available_stock < it.quantity) :
    complete_order s oid now = (false, s) := by
  have hbad : stockOk s it = false := by
    simp only [stockOk, hp, decide_eq_false_iff_not]
    omega
  have hall : (orderItems s oid).all (stockOk s) = false :=
    List.all_eq_false.mpr ⟨it, hit, by simp [hbad]⟩
  simp [complete_order, hall]

/-- The oversold scenario of the spec: stock 2, one cart line asking for 5. -/
def overStore : Store :=
  { products := [{ productId := 1, product_name := "Serum", price := 250,
                   available_stock := 2, featured := false }],
    orders := [{ orderId := 5, userId := 3, in_cart := true, completed_at := none }],
    items := [{ orderItemId := 7, orderId := 5, productId := 1, quantity := 5,
                price_at_purchase := some 250 }] }

theorem C1_witness : complete_order overStore 5 100 = (false, overStore) :=
  C1_complete_order_all_or_nothing overStore 5 100
    { orderItemId := 7, orderId := 5, productId := 1, quantity := 5, price_at_purchase := some 250 }
    { productId := 1, product_name := "Serum", price := 250, available_stock := 2, featured := false }
    (List.Mem.head _) rfl (by decide)

/-- C4: `get_total_price` is the sum over the order's items of
`quantity * price_at_purchase` (every persisted item carries a snapshot
price, per the `OrderItem.save` override), and it reads only the persisted
item snapshots: replacing the whole product table — live prices included —
does not change it. -/
theorem C4_get_total_price (s : Store) (oid : Nat)
    (hsnap : (orderItems s oid).all (fun it => it.price_at_purchase.isSome) = true) :
    get_total_price s oid
      = ((orderItems s oid).map
          (fun it => (it.quantity : ℚ) * it.price_at_purchase.getD 0)).sum
    ∧ ∀ ps : List Product, get_total_price { s with products := ps } oid = get_total_price s oid := by
  constructor
  · unfold get_total_price
    congr 1
    apply List.map_congr_left
    intro it hit
    have hs := List.all_eq_true.mp hsnap it hit
    cases hpp : it.price_at_purchase with
    | none => rw [hpp] at hs; simp at hs
    | some v => simp [get_subtotal, hpp]
  · intro ps
    rfl

/-- The successful spec scenario: stock 10, price 250.00, one line of 4. -/
def demoStore : Store :=
  { products := [{ productId := 1, product_name := "Serum", price := 250,
                   available_stock := 10, featured := false }],
    orders := [{ orderId := 5, userId := 3, in_cart := true, completed_at := none }],
    items := [{ orderItemId := 7, orderId := 5, productId := 1, quantity := 4,
                price_at_purchase := some 250 }] }

theorem C4_witness :
    get_total_price demoStore 5
      = ((orderItems demoStore 5).map
          (fun it => (it.quantity : ℚ) * it.price_at_purchase.getD 0)).sum :=
  (C4_get_total_price demoStore 5 rfl).1

theorem qtyFor_of_nodup (its : List OrderItem) (it : OrderItem)
    (hmem : it ∈ its) (hnd : (its.map (fun j => j.productId)).Nodup) :
    qtyFor its it.productId = it.quantity := by
  induction its with
  | nil => cases hmem
  | cons a l ih =>
    rw [qtyFor_cons]
    rcases List.mem_cons.mp hmem with rfl | hmem'
    · have hfe : qtyFor l it.productId = 0 := by
        unfold qtyFor
        have hnil : l.filter (fun j => j.productId == it.productId) = [] := by
          rw [List.filter_eq_nil_iff]
          intro j hj
          have h1 : it.productId ∉ l.map (fun j => j.productId) := (List.nodup_cons.mp hnd).1
          simp only [beq_iff_eq]
          intro hcontra
          apply h1
          rw [← hcontra]
          exact List.mem_map_of_mem _ hj
        rw [hnil]
        rfl
      simp [hfe]
    · have hna : a.productId ≠ it.productId := by
        have h1 : a.productId ∉ l.map (fun j => j.productId) := (List.nodup_cons.mp hnd).1
        intro hcontra
        apply h1
        rw [hcontra]
        exact List.mem_map_of_mem _ hmem'
      have hrec := ih hmem' (List.nodup_cons.mp hnd).2
      simp [hrec, hna]

/-- C2: success postcondition of `complete_order`: when every item of the
order fits in its product's current stock, the call returns `True`, each
referenced product's `available_stock` drops by exactly that item's
quantity (item product references are pairwise distinct, per
`OrderItem.Meta.unique_together`), unreferenced products are untouched, and
the order is marked `in_cart = False` with `completed_at` set to the
current time. -/
theorem C2_complete_order_success (s : Store) (oid now : Nat)
    (hok : (orderItems s oid).all (stockOk s) = true)
    (hnodup : ((orderItems s oid).map (fun it => it.productId)).Nodup) :
    (complete_order s oid now).1 = true
    ∧ (∀ it ∈ orderItems s oid, ∀ p, findProduct s it.productId = some p →
        findProduct (complete_order s oid now).2 it.productId
          = some { p with available_stock := p.available_stock - it.quantity })
    ∧ (∀ pid, (∀ it ∈ orderItems s oid, it.productId ≠ pid) →
        findProduct (complete_order s oid now).2 pid = findProduct s pid)
    ∧ findOrderL (complete_order s oid now).2.orders oid
        = (findOrderL s.orders oid).map (markCompleted now) := by
  have hco : complete_order s oid now
      = (true,
          { s with
            products := deductStock s.products (orderItems s oid),
            orders := s.orders.map
              (fun o => if o.orderId == oid then markCompleted now o else o) }) := by
    simp [complete_order, hok]
  refine ⟨?_, ?_, ?_, ?_⟩
  · rw [hco]
  · intro it hit p hp
    rw [hco]
    show findProductL (deductStock s.products (orderItems s oid)) it.productId = _
    rw [findProductL_deductStock, qtyFor_of_nodup (orderItems s oid) it hit hnodup]
    rw [show findProductL s.products it.productId = some p from hp]
    rfl
  · intro pid hno
    rw [hco]
    show findProductL (deductStock s.products (orderItems s oid)) pid = findProductL s.products pid
    rw [findProductL_deductStock]
    have hzero : qtyFor (orderItems s oid) pid = 0 := by
      unfold qtyFor
      have hnil : (orderItems s oid).filter (fun j => j.productId == pid) = [] := by
        rw [List.filter_eq_nil_iff]
        intro j hj
        simpa using hno j hj
      rw [hnil]
      rfl
    rw [hzero]
    cases findProductL s.products pid with
    | none => rfl
    | some p => simp
  · rw [hco]
    show findOrderL (s.orders.map
        (fun o => if o.orderId == oid then markCompleted now o else o)) oid = _
    rw [findOrderL_mapUpdate s.orders oid oid (markCompleted now) (fun o => rfl)]
    cases hfo : findOrderL s.orders oid with
    | none => rfl
    | some o =>
      have heq : o.orderId = oid := by
        unfold findOrderL at hfo
        have h2 := List.find?_some hfo
        simpa using h2
      simp [heq]

theorem C2_witness : (complete_order demoStore 5 100).1 = true :=
  (C2_complete_order_success demoStore 5 100 rfl (by decide)).1

theorem activeCount_zero_of_none (s : Store) (u : Nat)
    (h : findActiveCart s u = none) : activeCount s.orders u = 0 := by
  unfold findActiveCart at h
  rw [List.find?_eq_none] at h
  unfold activeCount
  rw [List.length_eq_zero, List.filter_eq_nil_iff]
  exact h

theorem activeCount_append (os os' : List Order) (u : Nat) :
    activeCount (os ++ os') u = activeCount os u + activeCount os' u := by
  unfold activeCount
  rw [List.filter_append, List.length_append]

theorem activeCount_map_le (os : List Order) (f : Order → Order) (u : Nat)
    (hf : ∀ o, ((f o).userId == u && (f o).in_cart) = true →
      (o.userId == u && o.in_cart) = true) :
    activeCount (os.map f) u ≤ activeCount os u := by
  induction os with
  | nil => exact Nat.le_refl _
  | cons a l ih =>
    unfold activeCount at *
    simp only [List.map_cons, List.filter_cons]
    cases hfa : ((f a).userId == u && (f a).in_cart) with
    | true =>
      have hpa := hf a hfa
      simp [hfa, hpa]
      omega
    | false =>
      cases hpa : (a.userId == u && a.in_cart) with
      | true => simp [hfa, hpa]; omega
      | false => simp [hfa, hpa]; omega

theorem add_to_cart_orders_cases (s : Store) (userId pid : Nat) (q : QtyInput) (o i : Nat) :
    (add_to_cart s userId pid q o i).2.orders = s.orders
    ∨ (findActiveCart s userId = none ∧
        (add_to_cart s userId pid q o i).2.orders
          = s.orders ++ [{ orderId := o, userId := userId, in_cart := true, completed_at := none }]) := by
  unfold add_to_cart
  cases findProduct s pid with
  | none => exact Or.inl rfl
  | some product =>
    dsimp only
    split
    · exact Or.inl rfl
    · split
      · exact Or.inl rfl
      · unfold getOrCreateCart
        cases hac : findActiveCart s userId with
        | some ord =>
          dsimp only
          cases findCartItem s ord.orderId pid with
          | none => exact Or.inl rfl
          | some it =>
            dsimp only
            split
            · exact Or.inl rfl
            · exact Or.inl rfl
        | none =>
          dsimp only
          cases findCartItem s o pid with
          | none => exact Or.inr ⟨rfl, rfl⟩
          | some it =>
            dsimp only
            split
            · exact Or.inr ⟨rfl, rfl⟩
            · exact Or.inr ⟨rfl, rfl⟩

theorem update_cart_item_orders_eq (s : Store) (u i : Nat) (q : QtyInput) :
    (update_cart_item s u i q).2.orders = s.orders := by
  unfold update_cart_item
  cases findOwnedCartItem s u i with
  | none => rfl
  | some it =>
    dsimp only
    split
    · rfl
    · cases findProduct s it.productId with
      | none => rfl
      | some product =>
        dsimp only
        split
        · rfl
        · rfl

theorem remove_from_cart_orders_eq (s : Store) (u i : Nat) :
    (remove_from_cart s u i).2.orders = s.orders := by
  unfold remove_from_cart
  cases findOwnedCartItem s u i with
  | none => rfl
  | some it => rfl

theorem complete_order_active_le (s : Store) (oid now : Nat) (u : Nat) :
    activeCount (complete_order s oid now).2.orders u ≤ activeCount s.orders u := by
  unfold complete_order
  dsimp only
  split
  · apply activeCount_map_le
    intro o ho
    by_cases h : (o.orderId == oid) = true
    · rw [if_pos h] at ho
      exfalso
      simp [markCompleted] at ho
    · rw [if_neg h] at ho
      exact ho
  · exact Nat.le_refl _

theorem checkout_active_le (s : Store) (userId now u : Nat) :
    activeCount (checkout s userId now).2.orders u ≤ activeCount s.orders u := by
  unfold checkout
  cases findActiveCart s userId with
  | none => exact Nat.le_refl _
  | some cart =>
    dsimp only
    split
    · exact Nat.le_refl _
    · split
      · exact complete_order_active_le s cart.orderId now u
      · exact complete_order_active_le s cart.orderId now u

theorem add_to_cart_active_le (s : Store) (userId pid : Nat) (q : QtyInput) (o i u : Nat)
    (h : activeCount s.orders u ≤ 1) :
    activeCount (add_to_cart s userId pid q o i).2.orders u ≤ 1 := by
  rcases add_to_cart_orders_cases s userId pid q o i with heq | ⟨hnone, heq⟩
  · rw [heq]; exact h
  · rw [heq, activeCount_append]
    cases hcu : (userId == u) with
    | true =>
      have hu : userId = u := by simpa using hcu
      subst hu
      rw [activeCount_zero_of_none s userId hnone]
      have h1 : activeCount
          [{ orderId := o, userId := userId, in_cart := true, completed_at := none }] userId ≤ 1 := by
        simp [activeCount, List.filter_cons]
      omega
    | false =>
      have h0 : activeCount
          [{ orderId := o, userId := userId, in_cart := true, completed_at := none }] u = 0 := by
        simp [activeCount, List.filter_cons, hcu]
      omega

/-- C3 counterexample to the claimed guarantee mechanism: the `Order` model
declares no storage-layer uniqueness constraint at all (`Order.Meta`,
`models.py` lines 160-163), in particular not the spec-mandated one on
`(user, in_cart)`; `add_to_cart_view` relies on a bare
`get_or_create(user=..., in_cart=True)` with nothing enforcing uniqueness
in the schema. -/
theorem C3_no_unique_constraint_in_code :
    specOrderUniqueConstraint ∉ orderMetaUniqueTogether := by
  simp [orderMetaUniqueTogether]

/-- C3 (amended): at most one `in_cart=True` order per user holds in the
empty initial state and is preserved by every exposed operation —
`add_to_cart`'s find-or-create, `update_cart_item`, `remove_from_cart`,
`complete_order` and `checkout` — under sequential execution; (the code
has no storage-layer uniqueness constraint backing this, see
`orderMetaUniqueTogether`). -/
theorem C3_single_active_cart_preserved :
    (∀ u, activeCartCount emptyStore u ≤ 1)
    ∧ (∀ s userId pid q o i u, activeCartCount s u ≤ 1 →
        activeCartCount (add_to_cart s userId pid q o i).2 u ≤ 1)
    ∧ (∀ s userId itemId q u, activeCartCount s u ≤ 1 →
        activeCartCount (update_cart_item s userId itemId q).2 u ≤ 1)
    ∧ (∀ s userId itemId u, activeCartCount s u ≤ 1 →
        activeCartCount (remove_from_cart s userId itemId).2 u ≤ 1)
    ∧ (∀ s oid now u, activeCartCount s u ≤ 1 →
        activeCartCount (complete_order s oid now).2 u ≤ 1)
    ∧ (∀ s userId now u, activeCartCount s u ≤ 1 →
        activeCartCount (checkout s userId now).2 u ≤ 1) := by
  refine ⟨?_, ?_, ?_, ?_, ?_, ?_⟩
  · intro u
    simp [activeCartCount, activeCount, emptyStore]
  · intro s userId pid q o i u h
    exact add_to_cart_active_le s userId pid q o i u h
  · intro s userId itemId q u h
    unfold activeCartCount
    rw [update_cart_item_orders_eq]
    exact h
  · intro s userId itemId u h
    unfold activeCartCount
    rw [remove_from_cart_orders_eq]
    exact h
  · intro s oid now u h
    exact Nat.le_trans (complete_order_active_le s oid now u) h
  · intro s userId now u h
    exact Nat.le_trans (checkout_active_le s userId now u) h

theorem C3_witness :
    activeCartCount (add_to_cart emptyStore 3 1 (QtyInput.value 2) 5 7).2 3 ≤ 1 :=
  C3_single_active_cart_preserved.2.1 emptyStore 3 1 (QtyInput.value 2) 5 7 3 (by decide)

theorem orderItemSave_quantity (s : Store) (it : OrderItem) :
    (orderItemSave s it).quantity = it.quantity := by
  unfold orderItemSave
  split
  · cases findProduct s it.productId <;> rfl
  · rfl

theorem orderItemSave_orderItemId (s : Store) (it : OrderItem) :
    (orderItemSave s it).orderItemId = it.orderItemId := by
  unfold orderItemSave
  split
  · cases findProduct s it.productId <;> rfl
  · rfl

theorem orderItemSave_orderId (s : Store) (it : OrderItem) :
    (orderItemSave s it).orderId = it.orderId := by
  unfold orderItemSave
  split
  · cases findProduct s it.productId <;> rfl
  · rfl

theorem orderItemSave_productId (s : Store) (it : OrderItem) :
    (orderItemSave s it).productId = it.productId := by
  unfold orderItemSave
  split
  · cases findProduct s it.productId <;> rfl
  · rfl

theorem orderItemSave_price_of_ne_zero (s : Store) (it : OrderItem)
    (h : ¬ it.price_at_purchase.getD 0 = 0) :
    (orderItemSave s it).price_at_purchase = it.price_at_purchase := by
  unfold orderItemSave
  rw [if_neg (by simpa using h)]

theorem add_to_cart_products_eq (s : Store) (userId pid : Nat) (q : QtyInput) (o i : Nat) :
    (add_to_cart s userId pid q o i).2.products = s.products := by
  unfold add_to_cart
  cases findProduct s pid with
  | none => rfl
  | some product =>
    dsimp only
    split
    · rfl
    · split
      · rfl
      · unfold getOrCreateCart
        cases findActiveCart s userId with
        | some ord =>
          dsimp only
          cases findCartItem s ord.orderId pid with
          | none => rfl
          | some it =>
            dsimp only
            split
            · rfl
            · rfl
        | none =>
          dsimp only
          cases findCartItem s o pid with
          | none => rfl
          | some it =>
            dsimp only
            split
            · rfl
            · rfl

theorem add_to_cart_shape (s : Store) (userId pid : Nat) (q : QtyInput) (o i : Nat) :
    (add_to_cart s userId pid q o i).1 = .success
    ∨ (add_to_cart s userId pid q o i).2.items = s.items := by
  unfold add_to_cart
  cases findProduct s pid with
  | none => exact Or.inr rfl
  | some product =>
    dsimp only
    split
    · exact Or.inr rfl
    · split
      · exact Or.inr rfl
      · unfold getOrCreateCart
        cases findActiveCart s userId with
        | some ord =>
          dsimp only
          cases findCartItem s ord.orderId pid with
          | none => exact Or.inl rfl
          | some it =>
            dsimp only
            split
            · exact Or.inr rfl
            · exact Or.inl rfl
        | none =>
          dsimp only
          cases findCartItem s o pid with
          | none => exact Or.inl rfl
          | some it =>
            dsimp only
            split
            · exact Or.inr rfl
            · exact Or.inl rfl

/-- C6: `add_to_cart` rejects a zero-stock product as `OutOfStock`, rejects
a request exceeding stock — directly or cumulatively with an existing cart
line — as `InsufficientStock`, never touches any product's
`available_stock` (success included; the cart is unreserved), and leaves
the item table untouched on every non-success outcome. -/
theorem C6_add_to_cart_stock_errors (s : Store) (userId pid : Nat) (q : QtyInput)
    (o i : Nat) (p : Product)
    (hp : findProduct s pid = some p) :
    (p.available_stock = 0 → add_to_cart s userId pid q o i = (.outOfStock, s))
    ∧ (∀ n : Int, q = .value n → 0 < p.available_stock → p.available_stock < n →
        add_to_cart s userId pid q o i = (.insufficientStock, s))
    ∧ (∀ ord it, findActiveCart s userId = some ord →
        findCartItem s ord.orderId pid = some it →
        0 < p.available_stock → coercedAddQty q ≤ p.available_stock →
        p.available_stock < it.quantity + coercedAddQty q →
        add_to_cart s userId pid q o i = (.insufficientStock, s))
    ∧ (add_to_cart s userId pid q o i).2.products = s.products
    ∧ ((add_to_cart s userId pid q o i).1 ≠ .success →
        (add_to_cart s userId pid q o i).2.items = s.items) := by
  refine ⟨?_, ?_, ?_, add_to_cart_products_eq s userId pid q o i, ?_⟩
  · intro h0
    unfold add_to_cart
    rw [hp]
    dsimp only
    rw [if_pos (by omega)]
  · intro n hq h0 hlt
    subst hq
    have hn : coercedAddQty (QtyInput.value n) = n := by
      have hp1 : parseQty (QtyInput.value n) = n := rfl
      unfold coercedAddQty
      rw [hp1]
      omega
    unfold add_to_cart
    rw [hp]
    dsimp only
    rw [hn, if_neg (by omega), if_pos hlt]
  · intro ord it hac hfc h0 hle hcum
    unfold add_to_cart
    rw [hp]
    dsimp only
    rw [if_neg (by omega), if_neg (by omega)]
    unfold getOrCreateCart
    rw [hac]
    dsimp only
    rw [hfc]
    dsimp only
    rw [if_pos (by omega)]
  · intro hne
    exact (add_to_cart_shape s userId pid q o i).resolve_left hne

/-- A zero-stock catalog used to instantiate the `OutOfStock` rejection. -/
def zeroStockStore : Store :=
  { products := [{ productId := 1, product_name := "Serum", price := 250,
                   available_stock := 0, featured := false }],
    orders := [],
    items := [] }

theorem C6_witness :
    add_to_cart zeroStockStore 3 1 (QtyInput.value 2) 5 7 = (AddResult.outOfStock, zeroStockStore) :=
  (C6_add_to_cart_stock_errors zeroStockStore 3 1 (QtyInput.value 2) 5 7
    { productId := 1, product_name := "Serum", price := 250, available_stock := 0, featured := false }
    rfl).1 rfl

theorem update_cart_item_eq_updated (s : Store) (userId itemId : Nat) (q : QtyInput)
    (it : OrderItem) (p : Product)
    (hit : findOwnedCartItem s userId itemId = some it)
    (hp : findProduct s it.productId = some p)
    (h1 : 1 ≤ parseQty q) (hle : parseQty q ≤ p.available_stock) :
    update_cart_item s userId itemId q
      = (.updated,
          { s with
            items := s.items.map (fun j =>
              if j.orderItemId == it.orderItemId
              then orderItemSave s { j with quantity := parseQty q }
              else j) }) := by
  unfold update_cart_item
  rw [hit]
  dsimp only
  rw [if_neg (by omega)]
  rw [hp]
  dsimp only
  rw [if_neg (by omega)]

theorem update_sets_quantity (s : Store) (userId itemId : Nat) (q : QtyInput)
    (it : OrderItem) (p : Product)
    (hit : findOwnedCartItem s userId itemId = some it)
    (hp : findProduct s it.productId = some p)
    (h1 : 1 ≤ parseQty q) (hle : parseQty q ≤ p.available_stock) :
    (update_cart_item s userId itemId q).1 = .updated
    ∧ (update_cart_item s userId itemId q).2.items.map (fun j => j.quantity)
        = s.items.map (fun j =>
            if j.orderItemId == it.orderItemId then parseQty q else j.quantity) := by
  rw [update_cart_item_eq_updated s userId itemId q it p hit hp h1 hle]
  refine ⟨rfl, ?_⟩
  dsimp only
  rw [List.map_map]
  apply List.map_congr_left
  intro j hj
  by_cases hid : (j.orderItemId == it.orderItemId) = true
  · show (if (j.orderItemId == it.orderItemId) = true
        then orderItemSave s { j with quantity := parseQty q } else j).quantity = _
    rw [if_pos hid, if_pos hid, orderItemSave_quantity]
  · show (if (j.orderItemId == it.orderItemId) = true
        then orderItemSave s { j with quantity := parseQty q } else j).quantity = _
    rw [if_neg hid, if_neg hid]

/-- C7: `update_cart_item` with a parsed quantity below 1 deletes the item
(no error); with a quantity above the product's current stock it rejects as
`InsufficientStock` and changes nothing; otherwise it overwrites the item's
quantity with exactly the requested value (replace, not increment), leaving
every other item's quantity alone. -/
theorem C7_update_cart_item (s : Store) (userId itemId : Nat) :
    (∀ n : Int, n < 1 → ∀ it, findOwnedCartItem s userId itemId = some it →
      (update_cart_item s userId itemId (.value n)).1 = .removed
      ∧ (update_cart_item s userId itemId (.value n)).2.items
          = s.items.filter (fun j => !(j.orderItemId == itemId)))
    ∧ (∀ (n : Int) it p, findOwnedCartItem s userId itemId = some it →
        findProduct s it.productId = some p →
        1 ≤ n → p.available_stock < n →
        update_cart_item s userId itemId (.value n) = (.insufficientStock, s))
    ∧ (∀ (n : Int) it p, findOwnedCartItem s userId itemId = some it →
        findProduct s it.productId = some p →
        1 ≤ n → n ≤ p.available_stock →
        (update_cart_item s userId itemId (.value n)).1 = .updated
        ∧ (update_cart_item s userId itemId (.value n)).2.items.map (fun j => j.quantity)
            = s.items.map (fun j =>
                if j.orderItemId == it.orderItemId then n else j.quantity)) := by
  refine ⟨?_, ?_, ?_⟩
  · intro n hn it hit
    have hred : update_cart_item s userId itemId (.value n)
        = (.removed, { s with items := s.items.filter (fun j => !(j.orderItemId == itemId)) }) := by
      unfold update_cart_item
      rw [hit]
      dsimp only
      rw [if_pos (by exact hn)]
    rw [hred]
    exact ⟨rfl, rfl⟩
  · intro n it p hit hp h1 hlt
    unfold update_cart_item
    rw [hit]
    dsimp only
    simp only [parseQty]
    rw [if_neg (by omega)]
    rw [hp]
    dsimp only
    rw [if_pos (by exact hlt)]
  · intro n it p hit hp h1 hle
    exact update_sets_quantity s userId itemId (.value n) it p hit hp h1 hle

theorem C7_witness :
    (update_cart_item demoStore 3 7 (QtyInput.value 0)).1 = UpdateResult.removed :=
  ((C7_update_cart_item demoStore 3 7).1 0 (by decide)
    { orderItemId := 7, orderId := 5, productId := 1, quantity := 4, price_at_purchase := some 250 }
    rfl).1

theorem orderItemSave_of_price_set (s : Store) (iid oid pid : Nat) (qn : Int) (p : Product)
    (hp : findProduct s pid = some p) :
    orderItemSave s
      { orderItemId := iid, orderId := oid, productId := pid,
        quantity := qn, price_at_purchase := some p.price }
    = { orderItemId := iid, orderId := oid, productId := pid,
        quantity := qn, price_at_purchase := some p.price } := by
  unfold orderItemSave
  split
  · dsimp only
    rw [hp]
  · rfl

theorem add_create_items (s : Store) (userId pid : Nat) (q : QtyInput) (o i : Nat)
    (p : Product) (ord : Order)
    (hp : findProduct s pid = some p)
    (hac : findActiveCart s userId = some ord)
    (hfc : findCartItem s ord.orderId pid = none)
    (h0 : 0 < p.available_stock) (hle : coercedAddQty q ≤ p.available_stock) :
    add_to_cart s userId pid q o i
      = (.success,
          { s with
            items := s.items ++
              [{ orderItemId := i, orderId := ord.orderId, productId := pid,
                 quantity := coercedAddQty q, price_at_purchase := some p.price }] }) := by
  unfold add_to_cart
  rw [hp]
  dsimp only
  rw [if_neg (by omega), if_neg (by omega)]
  unfold getOrCreateCart
  rw [hac]
  dsimp only
  rw [hfc]
  dsimp only
  rw [orderItemSave_of_price_set s i ord.orderId pid (coercedAddQty q) p hp]

theorem add_increment_items (s : Store) (userId pid : Nat) (q : QtyInput) (o i : Nat)
    (p : Product) (ord : Order) (it : OrderItem)
    (hp : findProduct s pid = some p)
    (hac : findActiveCart s userId = some ord)
    (hfc : findCartItem s ord.orderId pid = some it)
    (h0 : 0 < p.available_stock) (hle : coercedAddQty q ≤ p.available_stock)
    (hcum : it.quantity + coercedAddQty q ≤ p.available_stock) :
    add_to_cart s userId pid q o i
      = (.success,
          { s with
            items := s.items.map (fun j =>
              if j.orderItemId == it.orderItemId
              then orderItemSave s { j with quantity := it.quantity + coercedAddQty q }
              else j) }) := by
  unfold add_to_cart
  rw [hp]
  dsimp only
  rw [if_neg (by omega), if_neg (by omega)]
  unfold getOrCreateCart
  rw [hac]
  dsimp only
  rw [hfc]
  dsimp only
  rw [if_neg (by omega)]

theorem complete_order_items_eq (s : Store) (oid now : Nat) :
    (complete_order s oid now).2.items = s.items := by
  unfold complete_order
  dsimp only
  split
  · rfl
  · rfl

theorem complete_order_products_strip (s : Store) (oid now : Nat) :
    (complete_order s oid now).2.products.map stripStock = s.products.map stripStock := by
  unfold complete_order
  dsimp only
  split
  · exact stripStock_deductStock (orderItems s oid) s.products
  · rfl

theorem update_cart_item_products_eq (s : Store) (userId itemId : Nat) (q : QtyInput) :
    (update_cart_item s userId itemId q).2.products = s.products := by
  unfold update_cart_item
  cases findOwnedCartItem s userId itemId with
  | none => rfl
  | some it =>
    dsimp only
    split
    · rfl
    · cases findProduct s it.productId with
      | none => rfl
      | some product =>
        dsimp only
        split
        · rfl
        · rfl

theorem remove_from_cart_products_eq (s : Store) (userId itemId : Nat) :
    (remove_from_cart s userId itemId).2.products = s.products := by
  unfold remove_from_cart
  cases findOwnedCartItem s userId itemId with
  | none => rfl
  | some it => rfl

theorem remove_from_cart_items_sub (s : Store) (userId itemId : Nat) :
    ∀ j ∈ (remove_from_cart s userId itemId).2.items, j ∈ s.items := by
  unfold remove_from_cart
  cases findOwnedCartItem s userId itemId with
  | none => exact fun j hj => hj
  | some it => exact fun j hj => (List.mem_filter.mp hj).1

/-- C8: an OrderItem's `price_at_purchase` is set exactly once, at
creation, to the product's price at that moment (conjunct 1: the created
line carries `some product.price`); neither adding more of the same
product, nor a quantity update, changes any item's snapshot price
(conjuncts 2-3; `price_at_purchase` is nonzero per the price validator, so
the `save` override never re-derives it); `complete_order` leaves the item
table untouched and `remove` only deletes rows (conjuncts 4-5); and on the
product side the cart operations change nothing while completion changes
nothing but `available_stock` (conjuncts 6-9) — so a later change to
`Product.price` can never reach an existing snapshot. -/
theorem C8_price_snapshot_immutable :
    (∀ s userId pid q (o i : Nat) p ord,
        findProduct s pid = some p →
        findActiveCart s userId = some ord →
        findCartItem s ord.orderId pid = none →
        0 < p.available_stock → coercedAddQty q ≤ p.available_stock →
        (add_to_cart s userId pid q o i).2.items
          = s.items ++
            [{ orderItemId := i, orderId := ord.orderId, productId := pid,
               quantity := coercedAddQty q, price_at_purchase := some p.price }])
    ∧ (∀ s userId pid q (o i : Nat) p ord it,
        findProduct s pid = some p →
        findActiveCart s userId = some ord →
        findCartItem s ord.orderId pid = some it →
        0 < p.available_stock → coercedAddQty q ≤ p.available_stock →
        it.quantity + coercedAddQty q ≤ p.available_stock →
        (∀ j ∈ s.items, ¬ j.price_at_purchase.getD 0 = 0) →
        (add_to_cart s userId pid q o i).2.items.map (fun j => j.price_at_purchase)
          = s.items.map (fun j => j.price_at_purchase))
    ∧ (∀ s userId itemId q it p,
        findOwnedCartItem s userId itemId = some it →
        findProduct s it.productId = some p →
        1 ≤ parseQty q → parseQty q ≤ p.available_stock →
        (∀ j ∈ s.items, ¬ j.price_at_purchase.getD 0 = 0) →
        (update_cart_item s userId itemId q).2.items.map (fun j => j.price_at_purchase)
          = s.items.map (fun j => j.price_at_purchase))
    ∧ (∀ s (oid now : Nat), (complete_order s oid now).2.items = s.items)
    ∧ (∀ s (userId itemId : Nat),
        ∀ j ∈ (remove_from_cart s userId itemId).2.items, j ∈ s.items)
    ∧ (∀ s userId pid q (o i : Nat), (add_to_cart s userId pid q o i).2.products = s.products)
    ∧ (∀ s (userId itemId : Nat) q, (update_cart_item s userId itemId q).2.products = s.products)
    ∧ (∀ s (userId itemId : Nat), (remove_from_cart s userId itemId).2.products = s.products)
    ∧ (∀ s (oid now : Nat), (complete_order s oid now).2.products.map stripStock
        = s.products.map stripStock) := by
  refine ⟨?_, ?_, ?_, complete_order_items_eq, remove_from_cart_items_sub,
    add_to_cart_products_eq, update_cart_item_products_eq, remove_from_cart_products_eq,
    complete_order_products_strip⟩
  · intro s userId pid q o i p ord hp hac hfc h0 hle
    rw [add_create_items s userId pid q o i p ord hp hac hfc h0 hle]
  · intro s userId pid q o i p ord it hp hac hfc h0 hle hcum hprices
    rw [add_increment_items s userId pid q o i p ord it hp hac hfc h0 hle hcum]
    dsimp only
    rw [List.map_map]
    apply List.map_congr_left
    intro j hj
    by_cases hid : (j.orderItemId == it.orderItemId) = true
    · show (if (j.orderItemId == it.orderItemId) = true
          then orderItemSave s { j with quantity := it.quantity + coercedAddQty q }
          else j).price_at_purchase = j.price_at_purchase
      rw [if_pos hid, orderItemSave_price_of_ne_zero]
      exact hprices j hj
    · show (if (j.orderItemId == it.orderItemId) = true
          then orderItemSave s { j with quantity := it.quantity + coercedAddQty q }
          else j).price_at_purchase = j.price_at_purchase
      rw [if_neg hid]
  · intro s userId itemId q it p hit hp h1 hle hprices
    rw [update_cart_item_eq_updated s userId itemId q it p hit hp h1 hle]
    dsimp only
    rw [List.map_map]
    apply List.map_congr_left
    intro j hj
    by_cases hid : (j.orderItemId == it.orderItemId) = true
    · show (if (j.orderItemId == it.orderItemId) = true
          then orderItemSave s { j with quantity := parseQty q }
          else j).price_at_purchase = j.price_at_purchase
      rw [if_pos hid, orderItemSave_price_of_ne_zero]
      exact hprices j hj
    · show (if (j.orderItemId == it.orderItemId) = true
          then orderItemSave s { j with quantity := parseQty q }
          else j).price_at_purchase = j.price_at_purchase
      rw [if_neg hid]

/-- A catalog with an (empty) active cart, for instantiating item creation. -/
def cartStore : Store :=
  { products := [{ productId := 1, product_name := "Serum", price := 250,
                   available_stock := 10, featured := false }],
    orders := [{ orderId := 5, userId := 3, in_cart := true, completed_at := none }],
    items := [] }

theorem C8_witness :
    (add_to_cart cartStore 3 1 (QtyInput.value 4) 9 7).2.items
      = cartStore.items ++
        [{ orderItemId := 7, orderId := 5, productId := 1,
           quantity := coercedAddQty (QtyInput.value 4), price_at_purchase := some (250 : ℚ) }] :=
  C8_price_snapshot_immutable.1 cartStore 3 1 (QtyInput.value 4) 9 7
    { productId := 1, product_name := "Serum", price := 250, available_stock := 10, featured := false }
    { orderId := 5, userId := 3, in_cart := true, completed_at := none }
    rfl rfl rfl (by decide) (by decide)

/-- C9: slip rendering is defined only for orders with at least one item —
an itemless order answers 404, not a document; a missing or throwing
WeasyPrint is swallowed and the ReportLab fallback renders instead; and the
503 "rendering unavailable" answer happens exactly when an order with items
was found, the primary engine is absent or throwing, and the fallback
module is absent — never a crash. -/
theorem C9_slip_rendering (s : Store) (userId : Nat) (oid? : Option Nat) (w wr c : Bool) :
    (∀ ord, resolveSlipOrder s userId oid? = some ord →
      orderItems s ord.orderId = [] →
      download_print_slip s userId oid? w wr c = .notFound)
    ∧ (∀ ord, resolveSlipOrder s userId oid? = some ord →
        orderItems s ord.orderId ≠ [] →
        (w = false ∨ wr = true) → c = true →
        download_print_slip s userId oid? w wr c = .pdfFallback)
    ∧ (∀ ord, resolveSlipOrder s userId oid? = some ord →
        orderItems s ord.orderId ≠ [] → w = true → wr = false →
        download_print_slip s userId oid? w wr c = .pdfPrimary)
    ∧ (download_print_slip s userId oid? w wr c = .unavailable ↔
        ∃ ord, resolveSlipOrder s userId oid? = some ord
          ∧ orderItems s ord.orderId ≠ []
          ∧ (w && !wr) = false ∧ c = false) := by
  refine ⟨?_, ?_, ?_, ?_⟩
  · intro ord hres hempty
    unfold download_print_slip
    rw [hres]
    dsimp only
    rw [if_pos (by rw [hempty]; rfl)]
  · intro ord hres hne hwp hc
    have hef : (orderItems s ord.orderId).isEmpty = false := by
      cases hlist : orderItems s ord.orderId with
      | nil => exact absurd hlist hne
      | cons a l => rfl
    unfold download_print_slip
    rw [hres]
    dsimp only
    rw [if_neg (by simp [hef])]
    rw [if_neg (by rcases hwp with h | h <;> simp [h])]
    rw [if_pos hc]
  · intro ord hres hne hw hwr
    have hef : (orderItems s ord.orderId).isEmpty = false := by
      cases hlist : orderItems s ord.orderId with
      | nil => exact absurd hlist hne
      | cons a l => rfl
    unfold download_print_slip
    rw [hres]
    dsimp only
    rw [if_neg (by simp [hef])]
    rw [if_pos (by simp [hw, hwr])]
  · cases hres : resolveSlipOrder s userId oid? with
    | none =>
      unfold download_print_slip
      rw [hres]
      simp
    | some ord =>
      unfold download_print_slip
      rw [hres]
      dsimp only
      cases horder : (orderItems s ord.orderId).isEmpty with
      | true =>
        have hnil : orderItems s ord.orderId = [] := by
          cases hlist : orderItems s ord.orderId with
          | nil => rfl
          | cons a l => rw [hlist] at horder; cases horder
        simp [hnil]
      | false =>
        have hne : orderItems s ord.orderId ≠ [] := by
          intro hcontra
          rw [hcontra] at horder
          cases horder
        cases hwp : (w && !wr) with
        | true => simp [hne]
        | false =>
          cases hc : c with
          | true => simp [hne]
          | false => simp [hne]

theorem C9_witness :
    download_print_slip demoStore 3 none false false true = SlipResult.pdfFallback :=
  (C9_slip_rendering demoStore 3 none false false true).2.1
    { orderId := 5, userId := 3, in_cart := true, completed_at := none }
    rfl (by decide) (Or.inl rfl) rfl

/-- C10 (implicit): both views coerce a missing or unparseable quantity to
1, and `add_to_cart` additionally clamps any parsed value below 1 up to 1 —
so bad quantity input to `add_to_cart` behaves exactly like an explicit 1
(never an error from the coercion, never a removal), while the same garbage
sent to `update_cart_item` parses to 1 and *sets* the quantity to 1 instead
of removing the item — asymmetric with its explicit below-1 removal rule. -/
theorem C10_garbage_quantity_coercion :
    (∀ n : Int, n < 1 → coercedAddQty (.value n) = 1)
    ∧ coercedAddQty .missing = 1
    ∧ coercedAddQty .garbage = 1
    ∧ (∀ s (userId pid o i : Nat) q, coercedAddQty q = 1 →
        add_to_cart s userId pid q o i = add_to_cart s userId pid (.value 1) o i)
    ∧ parseQty .missing = 1
    ∧ parseQty .garbage = 1
    ∧ (∀ s (userId itemId : Nat) q, parseQty q = 1 →
        update_cart_item s userId itemId q = update_cart_item s userId itemId (.value 1))
    ∧ (∀ s (userId itemId : Nat) it p,
        findOwnedCartItem s userId itemId = some it →
        findProduct s it.productId = some p →
        1 ≤ p.available_stock →
        (update_cart_item s userId itemId .garbage).1 = .updated
        ∧ (update_cart_item s userId itemId .garbage).2.items.map (fun j => j.quantity)
            = s.items.map (fun j =>
                if j.orderItemId == it.orderItemId then 1 else j.quantity)) := by
  refine ⟨?_, rfl, rfl, ?_, rfl, rfl, ?_, ?_⟩
  · intro n hn
    have h1 : parseQty (QtyInput.value n) = n := rfl
    unfold coercedAddQty
    rw [h1]
    omega
  · intro s userId pid o i q hq
    have h2 : coercedAddQty q = coercedAddQty (QtyInput.value 1) := by rw [hq]; decide
    unfold add_to_cart
    rw [h2]
  · intro s userId itemId q hq
    have h2 : parseQty q = parseQty (QtyInput.value 1) := by rw [hq]; rfl
    unfold update_cart_item
    rw [h2]
  · intro s userId itemId it p hit hp hstock
    exact update_sets_quantity s userId itemId .garbage it p hit hp (le_refl 1) hstock

theorem C10_witness :
    (update_cart_item demoStore 3 7 QtyInput.garbage).1 = UpdateResult.updated :=
  (C10_garbage_quantity_coercion.2.2.2.2.2.2.2 demoStore 3 7
    { orderItemId := 7, orderId := 5, productId := 1, quantity := 4, price_at_purchase := some 250 }
    { productId := 1, product_name := "Serum", price := 250, available_stock := 10, featured := false }
    rfl rfl (by decide)).1

theorem orderItemSave_pairKey (s : Store) (it : OrderItem) :
    pairKey (orderItemSave s it) = pairKey it := by
  unfold pairKey
  rw [orderItemSave_orderId, orderItemSave_productId]

theorem pairsNodup_append_new (its : List OrderItem) (ni : OrderItem)
    (h : pairsNodup its)
    (hnew : ∀ it ∈ its, pairKey it ≠ pairKey ni) :
    pairsNodup (its ++ [ni]) := by
  unfold pairsNodup at *
  rw [List.map_append, List.nodup_append]
  refine ⟨h, List.nodup_singleton _, ?_⟩
  intro k hk
  obtain ⟨it, hit, rfl⟩ := List.mem_map.mp hk
  simp only [List.map_cons, List.map_nil, List.mem_singleton]
  exact hnew it hit

theorem pairsNodup_map_upd (its : List OrderItem) (f : OrderItem → OrderItem)
    (hkey : ∀ it ∈ its, pairKey (f it) = pairKey it)
    (h : pairsNodup its) : pairsNodup (its.map f) := by
  unfold pairsNodup at *
  rw [List.map_map]
  have heq : its.map (pairKey ∘ f) = its.map pairKey :=
    List.map_congr_left (fun a ha => hkey a ha)
  rw [heq]
  exact h

theorem add_to_cart_pairs_nodup (s : Store) (userId pid : Nat) (q : QtyInput) (o i : Nat)
    (h : pairsNodup s.items) :
    pairsNodup (add_to_cart s userId pid q o i).2.items := by
  unfold add_to_cart
  cases findProduct s pid with
  | none => exact h
  | some product =>
    dsimp only
    split
    · exact h
    · split
      · exact h
      · unfold getOrCreateCart
        cases hac : findActiveCart s userId with
        | some ord =>
          dsimp only
          cases hfc : findCartItem s ord.orderId pid with
          | none =>
            dsimp only
            refine pairsNodup_append_new s.items _ h ?_
            intro it hit
            have hall := List.find?_eq_none.mp hfc it hit
            rw [orderItemSave_pairKey]
            intro hcontra
            unfold pairKey at hcontra
            dsimp only at hcontra
            rw [Prod.mk.injEq] at hcontra
            apply hall
            simp [hcontra.1, hcontra.2]
          | some it0 =>
            dsimp only
            split
            · exact h
            · refine pairsNodup_map_upd s.items _ ?_ h
              intro j hj
              by_cases hid : (j.orderItemId == it0.orderItemId) = true
              · rw [if_pos hid, orderItemSave_pairKey]
                rfl
              · rw [if_neg hid]
        | none =>
          dsimp only
          cases hfc : findCartItem s o pid with
          | none =>
            dsimp only
            refine pairsNodup_append_new s.items _ h ?_
            intro it hit
            have hall := List.find?_eq_none.mp hfc it hit
            rw [orderItemSave_pairKey]
            intro hcontra
            unfold pairKey at hcontra
            dsimp only at hcontra
            rw [Prod.mk.injEq] at hcontra
            apply hall
            simp [hcontra.1, hcontra.2]
          | some it0 =>
            dsimp only
            split
            · exact h
            · refine pairsNodup_map_upd s.items _ ?_ h
              intro j hj
              by_cases hid : (j.orderItemId == it0.orderItemId) = true
              · rw [if_pos hid, orderItemSave_pairKey]
                rfl
              · rw [if_neg hid]

theorem merged_filter (S : Store) (its : List OrderItem) (o1 pid i1 : Nat)
    (q1 q12 : Int) (p : Product)
    (hp : findProduct S pid = some p)
    (hfresh : ∀ it ∈ its, it.orderId ≠ o1) :
    ((((its ++ [({ orderItemId := i1, orderId := o1, productId := pid,
                   quantity := q1, price_at_purchase := some p.price } : OrderItem)]).map (fun j =>
        if j.orderItemId == i1
        then orderItemSave S { j with quantity := q12 }
        else j)).filter (fun it => it.orderId == o1 && it.productId == pid)).map
      (fun it => it.quantity)) = [q12] := by
  rw [List.map_append, List.filter_append]
  have hnil : ((its.map (fun j => if j.orderItemId == i1
      then orderItemSave S { j with quantity := q12 } else j)).filter
      (fun it => it.orderId == o1 && it.productId == pid)) = [] := by
    rw [List.filter_eq_nil_iff]
    intro j' hj'
    obtain ⟨j, hj, rfl⟩ := List.mem_map.mp hj'
    intro hpred
    have horder : (if (j.orderItemId == i1) = true
        then orderItemSave S { j with quantity := q12 } else j).orderId = j.orderId := by
      by_cases hid : (j.orderItemId == i1) = true
      · rw [if_pos hid, orderItemSave_orderId]
      · rw [if_neg hid]
    rw [Bool.and_eq_true, horder] at hpred
    exact hfresh j hj (by simpa using hpred.1)
  have hone : ([({ orderItemId := i1, orderId := o1, productId := pid,
                   quantity := q1, price_at_purchase := some p.price } : OrderItem)].map (fun j =>
        if j.orderItemId == i1 then orderItemSave S { j with quantity := q12 } else j))
      = [({ orderItemId := i1, orderId := o1, productId := pid,
            quantity := q12, price_at_purchase := some p.price } : OrderItem)] := by
    simp only [List.map_cons, List.map_nil]
    congr 1
    rw [if_pos (by simp)]
    exact orderItemSave_of_price_set S i1 o1 pid q12 p hp
  rw [hnil, hone]
  simp

theorem add_twice_merges (s : Store) (userId pid : Nat) (q1 q2 : Int)
    (o1 i1 o2 i2 : Nat) (p : Product)
    (hp : findProduct s pid = some p)
    (hq1 : 1 ≤ q1) (hq2 : 1 ≤ q2)
    (hsum : q1 + q2 ≤ p.available_stock)
    (hnoactive : findActiveCart s userId = none)
    (hfresh : ∀ it ∈ s.items, it.orderId ≠ o1) :
    (add_to_cart s userId pid (.value q1) o1 i1).1 = .success
    ∧ (add_to_cart (add_to_cart s userId pid (.value q1) o1 i1).2 userId pid
        (.value q2) o2 i2).1 = .success
    ∧ (((add_to_cart (add_to_cart s userId pid (.value q1) o1 i1).2 userId pid
          (.value q2) o2 i2).2.items.filter
          (fun it => it.orderId == o1 && it.productId == pid)).map (fun it => it.quantity))
      = [q1 + q2] := by
  have h0 : (0 : Int) < p.available_stock := by omega
  have hc1 : coercedAddQty (QtyInput.value q1) = q1 := by
    have hpq : parseQty (QtyInput.value q1) = q1 := rfl
    unfold coercedAddQty
    rw [hpq]
    omega
  have hc2 : coercedAddQty (QtyInput.value q2) = q2 := by
    have hpq : parseQty (QtyInput.value q2) = q2 := rfl
    unfold coercedAddQty
    rw [hpq]
    omega
  have hfc1 : findCartItem s o1 pid = none := by
    unfold findCartItem
    rw [List.find?_eq_none]
    intro it hit hpred
    rw [Bool.and_eq_true] at hpred
    exact hfresh it hit (by simpa using hpred.1)
  have hadd1 : add_to_cart s userId pid (.value q1) o1 i1
      = (.success,
          { s with
            orders := s.orders ++
              [{ orderId := o1, userId := userId, in_cart := true, completed_at := none }],
            items := s.items ++
              [{ orderItemId := i1, orderId := o1, productId := pid,
                 quantity := q1, price_at_purchase := some p.price }] }) := by
    unfold add_to_cart
    rw [hp]
    dsimp only
    rw [hc1]
    rw [if_neg (by omega), if_neg (by omega)]
    unfold getOrCreateCart
    rw [hnoactive]
    dsimp only
    rw [hfc1]
    dsimp only
    rw [orderItemSave_of_price_set s i1 o1 pid q1 p hp]
  have hp1 : findProduct (add_to_cart s userId pid (.value q1) o1 i1).2 pid = some p := by
    rw [hadd1]
    exact hp
  have hac1 : findActiveCart (add_to_cart s userId pid (.value q1) o1 i1).2 userId
      = some { orderId := o1, userId := userId, in_cart := true, completed_at := none } := by
    rw [hadd1]
    show (s.orders ++
        [({ orderId := o1, userId := userId, in_cart := true, completed_at := none } : Order)]).find?
        (fun o => o.userId == userId && o.in_cart) = _
    rw [List.find?_append]
    rw [show s.orders.find? (fun o => o.userId == userId && o.in_cart) = none from hnoactive]
    have hpos : ((fun o => o.userId == userId && o.in_cart)
        ({ orderId := o1, userId := userId, in_cart := true, completed_at := none } : Order)) = true := by
      simp
    exact List.find?_cons_of_pos (p := fun (o : Order) => o.userId == userId && o.in_cart) _ hpos
  have hfc2 : findCartItem (add_to_cart s userId pid (.value q1) o1 i1).2 o1 pid
      = some { orderItemId := i1, orderId := o1, productId := pid,
               quantity := q1, price_at_purchase := some p.price } := by
    rw [hadd1]
    show (s.items ++
        [({ orderItemId := i1, orderId := o1, productId := pid,
            quantity := q1, price_at_purchase := some p.price } : OrderItem)]).find?
        (fun it => it.orderId == o1 && it.productId == pid) = _
    rw [List.find?_append]
    rw [show s.items.find? (fun it => it.orderId == o1 && it.productId == pid) = none from hfc1]
    have hpos : ((fun it => it.orderId == o1 && it.productId == pid)
        ({ orderItemId := i1, orderId := o1, productId := pid,
           quantity := q1, price_at_purchase := some p.price } : OrderItem)) = true := by
      simp
    exact List.find?_cons_of_pos (p := fun (it : OrderItem) => it.orderId == o1 && it.productId == pid) _ hpos
  have hadd2 := add_increment_items (add_to_cart s userId pid (.value q1) o1 i1).2
    userId pid (.value q2) o2 i2 p
    { orderId := o1, userId := userId, in_cart := true, completed_at := none }
    { orderItemId := i1, orderId := o1, productId := pid,
      quantity := q1, price_at_purchase := some p.price }
    hp1 hac1 hfc2 h0
    (by rw [hc2]; omega)
    (by show q1 + coercedAddQty (QtyInput.value q2) ≤ p.available_stock
        rw [hc2]
        exact hsum)
  refine ⟨by rw [hadd1], by rw [hadd2], ?_⟩
  rw [hadd2]
  dsimp only
  rw [hc2]
  rw [hadd1]
  dsimp only
  exact merged_filter _ s.items o1 pid i1 q1 (q1 + q2) p hp hfresh

/-- C5: adding the same product twice — quantities `q1` then `q2`, with
`q1 + q2` within stock — to an initially cart-less user leaves exactly one
OrderItem row for that (order, product) pair, carrying quantity `q1 + q2`
(both adds succeed, no second row); and `add_to_cart` preserves
`(order, product)`-uniqueness of the item table
(`OrderItem.Meta.unique_together`) on every path. -/
theorem C5_same_product_merges (s : Store) (userId pid : Nat) (q1 q2 : Int)
    (o1 i1 o2 i2 : Nat) (p : Product)
    (hp : findProduct s pid = some p)
    (hq1 : 1 ≤ q1) (hq2 : 1 ≤ q2)
    (hsum : q1 + q2 ≤ p.available_stock)
    (hnoactive : findActiveCart s userId = none)
    (hfresh : ∀ it ∈ s.items, it.orderId ≠ o1) :
    ((add_to_cart s userId pid (.value q1) o1 i1).1 = .success
      ∧ (add_to_cart (add_to_cart s userId pid (.value q1) o1 i1).2 userId pid
          (.value q2) o2 i2).1 = .success
      ∧ (((add_to_cart (add_to_cart s userId pid (.value q1) o1 i1).2 userId pid
            (.value q2) o2 i2).2.items.filter
            (fun it => it.orderId == o1 && it.productId == pid)).map (fun it => it.quantity))
        = [q1 + q2])
    ∧ (∀ t (uid pd oo ii : Nat) qq, pairsNodup t.items →
        pairsNodup (add_to_cart t uid pd qq oo ii).2.items) :=
  ⟨add_twice_merges s userId pid q1 q2 o1 i1 o2 i2 p hp hq1 hq2 hsum hnoactive hfresh,
   fun t uid pd oo ii qq h => add_to_cart_pairs_nodup t uid pd qq oo ii h⟩

/-- A catalog with no orders and no items, for the add-twice scenario. -/
def catalogStore : Store :=
  { products := [{ productId := 1, product_name := "Serum", price := 250,
                   available_stock := 10, featured := false }],
    orders := [],
    items := [] }

theorem C5_witness :
    (((add_to_cart (add_to_cart catalogStore 3 1 (QtyInput.value 2) 5 7).2 3 1
        (QtyInput.value 3) 6 8).2.items.filter
        (fun it => it.orderId == 5 && it.productId == 1)).map (fun it => it.quantity))
      = [2 + 3] :=
  ((C5_same_product_merges catalogStore 3 1 2 3 5 7 6 8
      { productId := 1, product_name := "Serum", price := 250, available_stock := 10, featured := false }
      rfl (by decide) (by decide) (by decide) rfl
      (fun it hit => absurd hit (List.not_mem_nil it))).1).2.2
